import Mathlib

/-!
Shallow embedding of `src/eduhub_queries.py` (EduHub: data seeding, CRUD
accessors, aggregation pipelines, index creation) and proofs about it.

Conventions of the embedding:
* A MongoDB collection is a Lean `List` of records; the whole database is the
  `Db` structure, one field per collection touched by the code.
* Python floats (duration, price, progress, grade, rating) are modelled as `ℚ`.
* `datetime` values are modelled as `DateYMD` (year, month, day): the only
  operation the verified code performs on them is `$dateToString` with format
  `"%Y-%m"`.
* Driver-assigned `_id` values (`ObjectId`) are modelled as `Nat` in the `oid`
  field of `Submission`, the only record the verified accessors address by
  `_id`.
* Aggregation `$group` is modelled as: the list of distinct grouping keys
  (via `List.dedup` of the mapped keys), each paired with the accumulator
  applied to the records carrying that key.  MongoDB leaves the order of
  `$group` output unspecified, so theorems about unsorted pipelines only use
  membership, never order.
* `$sort` is modelled with `List.insertionSort`.
-/

namespace EduHub

/-- Calendar date: the only datetime content the queries inspect. -/
structure DateYMD where
  year : Nat
  month : Nat
  day : Nat
deriving DecidableEq

/-- Embedded profile document of a user (generator, lines 38-42). -/
structure Profile where
  bio : String
  avatar : String
  skills : List String
deriving DecidableEq

/-- User document as written by the generator (lines 31-44). -/
structure User where
  userId : String
  email : String
  firstName : String
  lastName : String
  role : String
  dateJoined : DateYMD
  profile : Profile
  isActive : Bool
deriving DecidableEq

/-- Course document as written by the generator (lines 58-71).  The generator
never writes a `rating` field, but documents are schema-flexible and the
rating pipelines match on its presence, so it is modelled as `Option ℚ`
(`none` = attribute absent). -/
structure Course where
  courseId : String
  title : String
  description : String
  instructorId : String
  category : String
  level : String
  duration : ℚ
  price : ℚ
  tags : List String
  createdAt : DateYMD
  updatedAt : DateYMD
  isPublished : Bool
  rating : Option ℚ
deriving DecidableEq

/-- Enrollment document as written by the generator (lines 83-90).  Its
timestamp field is named `enrolledAt`; no other date field is ever written. -/
structure Enrollment where
  enrollmentId : String
  studentId : String
  courseId : String
  enrolledAt : DateYMD
  progress : ℚ
  completed : Bool
deriving DecidableEq

/-- Lesson document as written by the generator (lines 99-107). -/
structure Lesson where
  lessonId : String
  courseId : String
  title : String
  content : String
  videoUrl : String
  duration : ℚ
  order : Nat
deriving DecidableEq

/-- Assignment document as written by the generator (lines 116-122). -/
structure Assignment where
  assignmentId : String
  courseId : String
  title : String
  description : String
  dueDate : DateYMD
deriving DecidableEq

/-- Submission document as written by the generator (lines 132-139), plus the
driver-assigned `_id` (`oid`), which `update_assignment_grade` addresses. -/
structure Submission where
  oid : Nat
  submissionId : String
  assignmentId : String
  studentId : String
  submittedAt : DateYMD
  content : String
  grade : ℚ
deriving DecidableEq

/-- The database: one logical collection per entity kind, as the module uses
them.  `assignment_submissions` is the collection name that
`update_assignment_grade` writes to (line 207); no generator ever populates
it, but MongoDB creates collections lazily, so it is modelled as a list that
starts empty. -/
structure Db where
  users : List User
  courses : List Course
  enrollments : List Enrollment
  lessons : List Lesson
  assignments : List Assignment
  submissions : List Submission
  assignment_submissions : List Submission
deriving DecidableEq

/-! ### Aggregation building blocks -/

/-- Distinct values of the `$group` `_id` expression, in the order
`List.dedup` produces (MongoDB leaves `$group` output order unspecified). -/
def groupKeys {α κ : Type} [DecidableEq κ] (f : α → κ) (l : List α) : List κ :=
  (l.map f).dedup

/-- `$group` with accumulator `"total": {"$sum": 1}`. -/
def groupCount {α κ : Type} [DecidableEq κ] (f : α → κ) (l : List α) :
    List (κ × Nat) :=
  (groupKeys f l).map (fun k => (k, (l.filter (fun a => decide (f a = k))).length))

/-- Average of a list of numbers, as `$avg` computes it on a nonempty group. -/
def avgOf (l : List ℚ) : ℚ := l.sum / l.length

/-- `$group` with accumulator `{"$avg": g}` for an always-present field. -/
def groupAvg {α κ : Type} [DecidableEq κ] (f : α → κ) (g : α → ℚ) (l : List α) :
    List (κ × ℚ) :=
  (groupKeys f l).map
    (fun k => (k, avgOf ((l.filter (fun a => decide (f a = k))).map g)))

/-- `$group` with accumulator `{"$avg": g}` for a possibly-absent field:
`$avg` skips documents where the field is missing. -/
def groupAvgOf {α κ : Type} [DecidableEq κ] (f : α → κ) (g : α → Option ℚ)
    (l : List α) : List (κ × ℚ) :=
  (groupKeys f l).map
    (fun k => (k, avgOf ((l.filter (fun a => decide (f a = k))).filterMap g)))

/-- `$group` with accumulator `{"$sum": g}`. -/
def groupSumOf {α κ : Type} [DecidableEq κ] (f : α → κ) (g : α → ℚ) (l : List α) :
    List (κ × ℚ) :=
  (groupKeys f l).map
    (fun k => (k, ((l.filter (fun a => decide (f a = k))).map g).sum))

/-- Update of the first matching document in a collection: the semantics of
`update_one(filter, {"$set": ...})`. -/
def updateFirst {α : Type} (p : α → Bool) (f : α → α) : List α → List α
  | [] => []
  | a :: l => if p a then f a :: l else a :: updateFirst p f l

/-! ### Update and delete accessors (Tasks 3.3 / 3.4) -/

/-- `update_assignment_grade(submission_id, grade)` (line 206-207): a single
`update_one` on the collection named `assignment_submissions`, matching the
document by driver `_id` and setting its `grade` field. -/
def update_assignment_grade (s : Db) (submission_id : Nat) (grade : ℚ) : Db :=
  { s with assignment_submissions :=
      (updateFirst (fun x => decide (x.oid = submission_id))
        (fun x => { x with grade := grade }) s.assignment_submissions) }

/-- `soft_delete_user(user_id)` (line 214-215): `update_one` on `users`
matching on `userId` and setting `isActive` to `False`. -/
def soft_delete_user (s : Db) (user_id : String) : Db :=
  { s with users :=
      (updateFirst (fun u => decide (u.userId = user_id))
        (fun u => { u with isActive := false }) s.users) }

/-! ### Aggregation pipelines (Task 4.2) -/

/-- Lines 244-247: count total enrollments per course.  The pipeline runs on
the `enrollments` collection and groups by `"$courseId"` with
`{"$sum": 1}`. -/
def total_enrollments_per_course (es : List Enrollment) : List (String × Nat) :=
  groupCount (fun e => e.courseId) es

/-- Lines 249-253: average course rating.  `$match` keeps only courses whose
`rating` attribute exists, then groups by `"$courseId"` averaging
`"$rating"`. -/
def average_course_rating (cs : List Course) : List (String × ℚ) :=
  groupAvgOf (fun c => c.courseId) (fun c => c.rating)
    (cs.filter (fun c => c.rating.isSome))

/-- Lines 294-301: average course rating per instructor.  Same `$match` on the
presence of `rating`, grouped by `"$instructorId"`. -/
def average_rating_per_instructor (cs : List Course) : List (String × ℚ) :=
  groupAvgOf (fun c => c.instructorId) (fun c => c.rating)
    (cs.filter (fun c => c.rating.isSome))

/-- Lines 265-271: completion rate by course — group the enrollments by
`"$courseId"`, averaging `"$progress"`. -/
def completion_rate_by_course (es : List Enrollment) : List (String × ℚ) :=
  groupAvg (fun e => e.courseId) (fun e => e.progress) es

/-- Lines 343-349: student engagement metrics (average progress per course) —
group the enrollments by `"$courseId"`, averaging `"$progress"`. -/
def student_engagement_metrics (es : List Enrollment) : List (String × ℚ) :=
  groupAvg (fun e => e.courseId) (fun e => e.progress) es

/-- Ordering used by the `{"$sort": {"averageGrade": -1}}` stage: descending
in the grouped average. -/
def gradeDescOrder (a b : String × ℚ) : Prop := b.2 ≤ a.2

instance : DecidableRel gradeDescOrder := fun a b =>
  inferInstanceAs (Decidable (b.2 ≤ a.2))

instance : IsTotal (String × ℚ) gradeDescOrder :=
  ⟨fun a b => le_total b.2 a.2⟩

instance : IsTrans (String × ℚ) gradeDescOrder :=
  ⟨fun _ _ _ h1 h2 => le_trans h2 h1⟩

/-- Lines 273-278: top-performing students — group submissions by
`"$studentId"` averaging `"$grade"`, `$match` on `averageGrade ≥ 90`, then
`$sort` descending by the average. -/
def top_performing_students (subs : List Submission) : List (String × ℚ) :=
  List.insertionSort gradeDescOrder
    ((groupAvg (fun x => x.studentId) (fun x => x.grade) subs).filter
      (fun p => decide (90 ≤ p.2)))

/-- Lines 303-319: revenue generated per instructor.  `$lookup` attaches to
each course the enrollments whose `courseId` matches, `$project` computes
`revenue = size(enrolls) * price`, and `$group` sums revenue per
`instructorId`. -/
def revenue_generated_per_instructor (cs : List Course) (es : List Enrollment) :
    List (String × ℚ) :=
  groupSumOf (fun c => c.instructorId)
    (fun c => ((es.filter (fun e => decide (e.courseId = c.courseId))).length : ℚ)
      * c.price) cs

/-- Zero-padded decimal rendering of the month for `%m`. -/
def pad2 (n : Nat) : String :=
  if n < 10 then "0" ++ toString n else toString n

/-- Zero-padded decimal rendering of the year for `%Y`. -/
def pad4 (n : Nat) : String :=
  if n < 10 then "000" ++ toString n
  else if n < 100 then "00" ++ toString n
  else if n < 1000 then "0" ++ toString n
  else toString n

/-- `$dateToString` output for format `"%Y-%m"` on a present date. -/
def formatYM (d : DateYMD) : String := pad4 d.year ++ "-" ++ pad2 d.month

/-- The value of the field path `"$enrollmentDate"` on a stored Enrollment
document.  The generator (lines 83-90) writes the timestamp under the key
`enrolledAt` and nothing in the module ever writes a key `enrollmentDate`,
so on every stored document this path is missing, i.e. `none`. -/
def enrollmentDateField (_ : Enrollment) : Option DateYMD := none

/-- `{"$dateToString": {"format": "%Y-%m", "date": d}}`: null when the date
operand is missing or null, the formatted string otherwise. -/
def dateToStringYM : Option DateYMD → Option String
  | none => none
  | some d => some (formatYM d)

/-- Ordering used by the `{"$sort": {"_id": 1}}` stage of the monthly-trends
pipeline: ascending in the group key, with null before any string (BSON
ordering places null below strings). -/
def periodAscOrder (a b : (Option String) × Nat) : Prop :=
  match a.1, b.1 with
  | none, _ => True
  | some _, none => False
  | some s, some t => s ≤ t

instance : DecidableRel periodAscOrder := fun a b =>
  match a, b with
  | (none, _), _ => isTrue trivial
  | (some _, _), (none, _) => isFalse id
  | (some s, _), (some t, _) => inferInstanceAs (Decidable (s ≤ t))

/-- Lines 321-328: monthly enrollment trends.  Groups the enrollments by
`$dateToString "%Y-%m"` of the field path `"$enrollmentDate"` and sorts
ascending by the group key. -/
def monthly_enrollment_trends (es : List Enrollment) :
    List ((Option String) × Nat) :=
  List.insertionSort periodAscOrder
    (groupCount (fun e => dateToStringYM (enrollmentDateField e)) es)

/-- Formula of the specification, for comparison with the pipeline: per
instructor, the sum over that instructor's courses of the number of
Enrollment records whose `courseId` matches the course, multiplied by the
course's price. -/
def revenueSpec (cs : List Course) (es : List Enrollment) (i : String) : ℚ :=
  ((cs.filter (fun c => decide (c.instructorId = i))).map
    (fun c => ((es.filter (fun e => decide (e.courseId = c.courseId))).length : ℚ)
      * c.price)).sum

/-! ### Index manager (Task 5.1) -/

/-- An index declaration: target collection, indexed key list, uniqueness. -/
structure IndexSpec where
  coll : String
  keys : List String
  uniq : Bool
deriving DecidableEq

/-- The unique index on `users.email` declared at line 357. -/
def emailIndex : IndexSpec := ⟨"users", ["email"], true⟩

/-- Database together with its declared indexes. -/
structure Dbx where
  data : Db
  indexes : List IndexSpec
deriving DecidableEq

/-- Modelled from the spec: the `create_index` call of the underlying
database driver is not part of src (only its caller `create_indexes` is).
Following the spec's words — "applying it twice must be idempotent
(re-declaring an existing index is a no-op, except the unique index must
fail fast if duplicate emails already exist in storage)" — re-declaring an
index already present succeeds without change; declaring a new unique index
fails when the indexed field already holds duplicate values (the only unique
declaration in the module is on `users.email`, so the duplicate check is
instantiated for that field); otherwise the index is added. -/
def create_index (s : Dbx) (ix : IndexSpec) : Except String Dbx :=
  if ix ∈ s.indexes then Except.ok s
  else if ix.uniq = true ∧ ¬ (s.data.users.map (fun u => u.email)).Nodup then
    Except.error "duplicate key"
  else Except.ok { s with indexes := s.indexes ++ [ix] }

/-- `create_indexes()` (lines 356-360): the four `create_index` calls, in
order; an exception raised by one of them propagates. -/
def create_indexes (s : Dbx) : Except String Dbx :=
  match create_index s emailIndex with
  | Except.error e => Except.error e
  | Except.ok s1 =>
    match create_index s1 ⟨"courses", ["title", "category"], false⟩ with
    | Except.error e => Except.error e
    | Except.ok s2 =>
      match create_index s2 ⟨"assignments", ["dueDate"], false⟩ with
      | Except.error e => Except.error e
      | Except.ok s3 => create_index s3 ⟨"enrollments", ["studentId", "courseId"], false⟩

/-- `add_student_user(user)` (lines 153-154) on an indexed database.
Modelled from the spec: the driver's `insert_one` is not part of src; per
the spec's constraint taxonomy, inserting a user whose email duplicates a
stored one fails once the unique email index exists, and succeeds (appending
the document) otherwise. -/
def add_student_user (s : Dbx) (u : User) : Except String Dbx :=
  if emailIndex ∈ s.indexes ∧ u.email ∈ s.data.users.map (fun v => v.email) then
    Except.error "duplicate key"
  else Except.ok { s with data := { s.data with users := s.data.users ++ [u] } }

/-! ### Error-handling wrapper (Task 6.2) -/

/-- `insert_with_error_handling(collection, document)` (lines 378-382).
`res` is the outcome of `collection.insert_one(document)`: the new
collection contents on success, or the raised exception rendered as its
message.  The wrapper catches every exception (`except Exception`), appends
one log line (`print`), and — like the Python function, which has no
`return` statement on either path — yields `none` (Python's `None`) as its
return value in both branches.  Result: (collection contents, log, returned
value). -/
def insert_with_error_handling {α : Type} (coll : List α)
    (res : Except String (List α)) (log : List String) :
    (List α × List String) × Option Unit :=
  match res with
  | Except.ok c => ((c, log), none)
  | Except.error e => ((coll, log ++ ["Insertion failed: " ++ e]), none)

/-! ### Fixtures: concrete records used as evaluation inputs -/

/-- Enrollment with its `enrolledAt` timestamp in January 2024. -/
def enrJan : Enrollment :=
  { enrollmentId := "e001", studentId := "u001", courseId := "c001",
    enrolledAt := ⟨2024, 1, 10⟩, progress := 10, completed := false }

/-- Enrollment with its `enrolledAt` timestamp in February 2024. -/
def enrFeb : Enrollment :=
  { enrollmentId := "e002", studentId := "u002", courseId := "c001",
    enrolledAt := ⟨2024, 2, 15⟩, progress := 20, completed := false }

/-- Enrollment with its `enrolledAt` timestamp in March 2024. -/
def enrMar : Enrollment :=
  { enrollmentId := "e003", studentId := "u003", courseId := "c002",
    enrolledAt := ⟨2024, 3, 20⟩, progress := 30, completed := true }

/-- A stored submission, grade 50, inserted into `submissions`. -/
def subStored : Submission :=
  { oid := 1, submissionId := "s001", assignmentId := "a001", studentId := "u001",
    submittedAt := ⟨2024, 1, 1⟩, content := "answer text", grade := 50 }

/-- Database whose `submissions` collection holds exactly `subStored`. -/
def dbC2 : Db :=
  { users := [], courses := [], enrollments := [], lessons := [],
    assignments := [], submissions := [subStored], assignment_submissions := [] }

/-! ### Shared helper lemmas -/

/-- Membership in a keyed map `ks.map (fun k => (k, h k))`: the pair's first
component is a listed key, its second the key's value. -/
theorem mem_keyedMap {κ β : Type} (h : κ → β) (ks : List κ) (p : κ × β) :
    p ∈ ks.map (fun k => (k, h k)) ↔ p.1 ∈ ks ∧ p.2 = h p.1 := by
  constructor
  · intro hp
    rcases List.mem_map.mp hp with ⟨k, hk, he⟩
    cases he
    exact ⟨hk, rfl⟩
  · intro hp
    exact List.mem_map.mpr ⟨p.1, hp.1, by rw [← hp.2]⟩

/-- A value is a group key iff some record maps to it. -/
theorem mem_groupKeys {α κ : Type} [DecidableEq κ] {f : α → κ} {l : List α}
    {k : κ} : k ∈ groupKeys f l ↔ ∃ a ∈ l, f a = k := by
  simp [groupKeys, List.mem_dedup, List.mem_map]

/-- `updateFirst` never changes the collection's size. -/
theorem length_updateFirst {α : Type} (p : α → Bool) (f : α → α) (l : List α) :
    (updateFirst p f l).length = l.length := by
  induction l with
  | nil => rfl
  | cons a l ih =>
    by_cases h : p a = true <;> simp [updateFirst, h, ih]

/-- Case analysis for `updateFirst`: either nothing matches and the list is
unchanged, or the list splits around the first match, which alone is
rewritten. -/
theorem updateFirst_cases {α : Type} (p : α → Bool) (f : α → α) (l : List α) :
    ((∀ a ∈ l, p a = false) ∧ updateFirst p f l = l) ∨
    (∃ l1 a l2, l = l1 ++ a :: l2 ∧ p a = true ∧ (∀ b ∈ l1, p b = false) ∧
      updateFirst p f l = l1 ++ f a :: l2) := by
  induction l with
  | nil => exact Or.inl ⟨by simp, rfl⟩
  | cons a l ih =>
    by_cases hpa : p a = true
    · exact Or.inr ⟨[], a, l, by simp, hpa, by simp, by simp [updateFirst, hpa]⟩
    · have hpa' : p a = false := by simpa using hpa
      rcases ih with ⟨hall, hl⟩ | ⟨l1, b, l2, hdec, hpb, hl1, hupd⟩
      · refine Or.inl ⟨?_, by simp [updateFirst, hpa', hl]⟩
        intro x hx
        rcases List.mem_cons.mp hx with rfl | hx
        · exact hpa'
        · exact hall x hx
      · refine Or.inr ⟨a :: l1, b, l2, by simp [hdec], hpb, ?_,
          by simp [updateFirst, hpa', hupd]⟩
        intro x hx
        rcases List.mem_cons.mp hx with rfl | hx
        · exact hpa'
        · exact hl1 x hx

/-! ### Claim theorems -/

/-- C9: the completion-rate-by-course aggregation (lines 265-271) and the
student-engagement-metric aggregation (lines 343-349) compute the identical
function of the stored Enrollment records: for every state of the
enrollments collection they return the same per-course groups with the same
average progress. -/
theorem completion_rate_equals_engagement :
    ∀ es : List Enrollment,
      completion_rate_by_course es = student_engagement_metrics es :=
  fun _ => rfl

/-- C8: the error-handling insert wrapper catches every exception outcome of
the underlying insert, logs one message on failure, and returns `none`
(Python's `None`) on success and failure alike — its returned value never
lets a caller distinguish a swallowed failure from success. -/
theorem insert_wrapper_swallows (α : Type) (coll c : List α) (e : String)
    (log : List String) :
    (∀ res : Except String (List α),
        (insert_with_error_handling coll res log).2 = none) ∧
    (insert_with_error_handling coll (Except.error e) log).1.2
      = log ++ ["Insertion failed: " ++ e] ∧
    (insert_with_error_handling coll (Except.ok c) log).2
      = (insert_with_error_handling coll (Except.error e) log).2 := by
  refine ⟨fun res => ?_, rfl, rfl⟩
  cases res <;> rfl

/-- C2: the grade-update accessor does not mutate the collection the
Submission records were inserted into.  The generator stores submissions in
the `submissions` collection (line 141) while `update_assignment_grade`
(lines 206-207) issues its `update_one` against a collection named
`assignment_submissions`: for every state the `submissions` collection is
left untouched, and concretely the stored submission's grade stays 50 after
asking for it to become 90. -/
theorem update_assignment_grade_wrong_collection :
    (∀ (s : Db) (sid : Nat) (g : ℚ),
        (update_assignment_grade s sid g).submissions = s.submissions) ∧
    (update_assignment_grade dbC2 subStored.oid 90).submissions.map
      (fun x => x.grade) = [50] :=
  ⟨fun _ _ _ => rfl, rfl⟩

/-- C1: the monthly-trends pipeline groups on the field path
`"$enrollmentDate"`, but stored Enrollment documents carry their timestamp
under `enrolledAt` and never carry an `enrollmentDate` key, so the
`$dateToString` key expression is null for every record: three enrollments
whose timestamps lie in three distinct months collapse into one null-keyed
group of count 3 instead of one group per month. -/
theorem monthly_trends_collapse_to_null_group :
    (enrJan.enrolledAt.month ≠ enrFeb.enrolledAt.month ∧
     enrFeb.enrolledAt.month ≠ enrMar.enrolledAt.month ∧
     enrJan.enrolledAt.month ≠ enrMar.enrolledAt.month) ∧
    monthly_enrollment_trends [enrJan, enrFeb, enrMar] = [(none, 3)] := by
  decide

/-- Enrollment whose `courseId` is `"c002"`, the only one stored in the C3
scenario. -/
def enrOnlyC002 : Enrollment :=
  { enrollmentId := "e101", studentId := "u002", courseId := "c002",
    enrolledAt := ⟨2024, 5, 1⟩, progress := 0, completed := false }

/-- Course `"c001"`, stored with no matching enrollment. -/
def courseNoEnrollment : Course :=
  { courseId := "c001", title := "Intro", description := "basics",
    instructorId := "u001", category := "Programming", level := "beginner",
    duration := 10, price := 20, tags := ["Python"], createdAt := ⟨2024, 1, 1⟩,
    updatedAt := ⟨2024, 1, 1⟩, isPublished := true, rating := none }

/-- C3 counterexample: the per-course enrollment count pipeline runs on the
enrollments collection only.  With course `"c001"` stored but unenrolled and
a single enrollment for `"c002"`, the result holds one group for `"c002"`
and no group at all for the zero-enrollment course — it is omitted, not
reported with count 0. -/
theorem enrollments_per_course_omits_empty_course :
    courseNoEnrollment.courseId ≠ enrOnlyC002.courseId ∧
    total_enrollments_per_course [enrOnlyC002] = [("c002", 1)] ∧
    ¬ ∃ p ∈ total_enrollments_per_course [enrOnlyC002],
        p.1 = courseNoEnrollment.courseId := by
  decide

/-- C3 amended: the per-course enrollment count query is enrollment-seeded:
it reports, for each courseId occurring among the stored Enrollment records,
a count equal to the number of Enrollment records with that courseId (always
positive), and a course appears in the result iff at least one enrollment
references it — a course with zero enrollments is omitted. -/
theorem total_enrollments_per_course_counts (es : List Enrollment) :
    (∀ p ∈ total_enrollments_per_course es,
        p.2 = (es.filter (fun e => decide (e.courseId = p.1))).length ∧
        0 < p.2) ∧
    (∀ c : String,
        (∃ e ∈ es, e.courseId = c) ↔
          ∃ p ∈ total_enrollments_per_course es, p.1 = c) := by
  constructor
  · intro p hp
    simp only [total_enrollments_per_course, groupCount] at hp
    rcases (mem_keyedMap _ _ _).mp hp with ⟨h1, h2⟩
    refine ⟨h2, ?_⟩
    rcases mem_groupKeys.mp h1 with ⟨e, he, hek⟩
    rw [h2]
    have hmem : e ∈ es.filter (fun a => decide (a.courseId = p.1)) :=
      List.mem_filter.mpr ⟨he, by simp [hek]⟩
    exact List.length_pos.mpr (List.ne_nil_of_mem hmem)
  · intro c
    constructor
    · rintro ⟨e, he, rfl⟩
      refine ⟨(e.courseId,
        (es.filter (fun a => decide (a.courseId = e.courseId))).length), ?_, rfl⟩
      simp only [total_enrollments_per_course, groupCount]
      exact (mem_keyedMap _ _ _).mpr ⟨mem_groupKeys.mpr ⟨e, he, rfl⟩, rfl⟩
    · rintro ⟨p, hp, rfl⟩
      simp only [total_enrollments_per_course, groupCount] at hp
      exact mem_groupKeys.mp ((mem_keyedMap _ _ _).mp hp).1

/-- Course carrying no `rating` attribute. -/
def unratedCourse : Course :=
  { courseId := "c101", title := "NoRating", description := "none yet",
    instructorId := "u201", category := "Design", level := "beginner",
    duration := 8, price := 30, tags := [], createdAt := ⟨2024, 3, 1⟩,
    updatedAt := ⟨2024, 3, 1⟩, isPublished := true, rating := none }

/-- Course carrying a `rating` attribute of 4. -/
def ratedCourse : Course :=
  { courseId := "c102", title := "Rated", description := "rated course",
    instructorId := "u201", category := "Design", level := "advanced",
    duration := 12, price := 45, tags := [], createdAt := ⟨2024, 4, 1⟩,
    updatedAt := ⟨2024, 4, 1⟩, isPublished := true, rating := some 4 }

/-- C6: a course lacking the rating attribute contributes to neither the
numerator nor the denominator of either average-rating pipeline: prepending
such a course changes nothing, and each pipeline equals itself restricted to
the rating-carrying courses. -/
theorem average_rating_ignores_unrated (cs : List Course) (c : Course)
    (h : c.rating = none) :
    average_course_rating (c :: cs) = average_course_rating cs ∧
    average_rating_per_instructor (c :: cs) = average_rating_per_instructor cs ∧
    average_course_rating cs
      = average_course_rating (cs.filter (fun x => x.rating.isSome)) ∧
    average_rating_per_instructor cs
      = average_rating_per_instructor (cs.filter (fun x => x.rating.isSome)) := by
  have hfc : (c :: cs).filter (fun x => x.rating.isSome)
      = cs.filter (fun x => x.rating.isSome) := by
    simp [List.filter_cons, h]
  have hff : (cs.filter (fun x => x.rating.isSome)).filter
      (fun x => x.rating.isSome) = cs.filter (fun x => x.rating.isSome) := by
    simp [List.filter_filter]
  refine ⟨?_, ?_, ?_, ?_⟩ <;>
    simp [average_course_rating, average_rating_per_instructor, hfc, hff]

/-- C6 witness: instantiating at the concrete pair of courses, the unrated
course drops out of both pipelines. -/
theorem average_rating_ignores_unrated_witness :
    average_course_rating (unratedCourse :: [ratedCourse])
      = average_course_rating [ratedCourse] ∧
    average_rating_per_instructor (unratedCourse :: [ratedCourse])
      = average_rating_per_instructor [ratedCourse] ∧
    average_course_rating [ratedCourse]
      = average_course_rating
          ([ratedCourse].filter (fun x => x.rating.isSome)) ∧
    average_rating_per_instructor [ratedCourse]
      = average_rating_per_instructor
          ([ratedCourse].filter (fun x => x.rating.isSome)) :=
  average_rating_ignores_unrated [ratedCourse] unratedCourse (by decide)

/-- Course of the spec's example scenario: `c1`, owned by instructor `u1`,
price 100. -/
def courseC4 : Course :=
  { courseId := "c1", title := "Course One", description := "example",
    instructorId := "u1", category := "Programming", level := "beginner",
    duration := 10, price := 100, tags := [], createdAt := ⟨2024, 1, 1⟩,
    updatedAt := ⟨2024, 1, 1⟩, isPublished := true, rating := none }

/-- Enrollment of the spec's example scenario: `e1`, student `u2`, course
`c1`. -/
def enrC4 : Enrollment :=
  { enrollmentId := "e1", studentId := "u2", courseId := "c1",
    enrolledAt := ⟨2024, 2, 1⟩, progress := 0, completed := false }

/-- C4: every group the revenue pipeline emits carries exactly the spec's
value — the sum, over that instructor's courses, of the number of matching
Enrollment records times the course price — one group per instructor
occurring among the stored courses; and on the spec's example scenario the
revenue reported for `u1` is 100. -/
theorem revenue_per_instructor_correct (cs : List Course) (es : List Enrollment) :
    (∀ p ∈ revenue_generated_per_instructor cs es, p.2 = revenueSpec cs es p.1) ∧
    (∀ i : String,
        (∃ c ∈ cs, c.instructorId = i) ↔
          ∃ p ∈ revenue_generated_per_instructor cs es, p.1 = i) ∧
    revenue_generated_per_instructor [courseC4] [enrC4] = [("u1", 100)] := by
  refine ⟨?_, ?_, ?_⟩
  · intro p hp
    simp only [revenue_generated_per_instructor, groupSumOf] at hp
    exact ((mem_keyedMap _ _ _).mp hp).2
  · intro i
    constructor
    · rintro ⟨c, hc, rfl⟩
      refine ⟨(c.instructorId, revenueSpec cs es c.instructorId), ?_, rfl⟩
      simp only [revenue_generated_per_instructor, groupSumOf]
      exact (mem_keyedMap _ _ _).mpr ⟨mem_groupKeys.mpr ⟨c, hc, rfl⟩, rfl⟩
    · rintro ⟨p, hp, rfl⟩
      simp only [revenue_generated_per_instructor, groupSumOf] at hp
      exact mem_groupKeys.mp ((mem_keyedMap _ _ _).mp hp).1
  · show revenue_generated_per_instructor [courseC4] [enrC4] = [("u1", 100)]
    norm_num [revenue_generated_per_instructor, groupSumOf, groupKeys,
      courseC4, enrC4]

/-- C5: the top-students pipeline outputs exactly the per-student groups
whose average grade is at least 90 — a student with average exactly 90 is
included, every student averaging below 90 is excluded — each group carrying
that student's average over their Submission records, sorted descending by
the average. -/
theorem top_performing_students_spec (subs : List Submission) :
    List.Sorted gradeDescOrder (top_performing_students subs) ∧
    (∀ p : String × ℚ,
        p ∈ top_performing_students subs ↔
          ((∃ x ∈ subs, x.studentId = p.1) ∧
           p.2 = avgOf ((subs.filter
             (fun x => decide (x.studentId = p.1))).map (fun x => x.grade)) ∧
           90 ≤ p.2)) := by
  constructor
  · exact List.sorted_insertionSort gradeDescOrder _
  · intro p
    simp only [top_performing_students, List.mem_insertionSort, List.mem_filter,
      groupAvg]
    constructor
    · rintro ⟨hg, h90⟩
      rcases (mem_keyedMap _ _ _).mp hg with ⟨h1, h2⟩
      exact ⟨mem_groupKeys.mp h1, h2, by simpa using h90⟩
    · rintro ⟨hex, havg, h90⟩
      exact ⟨(mem_keyedMap _ _ _).mpr ⟨mem_groupKeys.mpr hex, havg⟩,
        by simpa using h90⟩

/-- C10: `soft_delete_user` touches only the `users` collection, keeps its
size (no document is removed), and either no user's `userId` matches and the
whole state is unchanged, or the list splits around the first matching user,
who alone is rewritten — with exactly the `isActive` field set to `false`
and every other field intact — while every user before the match (and, by
the split, every user after it) is unchanged. -/
theorem soft_delete_user_frame (s : Db) (uid : String) :
    (soft_delete_user s uid).courses = s.courses ∧
    (soft_delete_user s uid).enrollments = s.enrollments ∧
    (soft_delete_user s uid).lessons = s.lessons ∧
    (soft_delete_user s uid).assignments = s.assignments ∧
    (soft_delete_user s uid).submissions = s.submissions ∧
    (soft_delete_user s uid).assignment_submissions = s.assignment_submissions ∧
    (soft_delete_user s uid).users.length = s.users.length ∧
    (((∀ u ∈ s.users, u.userId ≠ uid) ∧ soft_delete_user s uid = s) ∨
      (∃ l1 u l2, s.users = l1 ++ u :: l2 ∧ u.userId = uid ∧
        (∀ v ∈ l1, v.userId ≠ uid) ∧
        (soft_delete_user s uid).users
          = l1 ++ ({ u with isActive := false }) :: l2)) := by
  refine ⟨rfl, rfl, rfl, rfl, rfl, rfl, length_updateFirst _ _ _, ?_⟩
  rcases updateFirst_cases (fun u => decide (u.userId = uid))
      (fun u => { u with isActive := false }) s.users with
    ⟨hall, hl⟩ | ⟨l1, u, l2, hdec, hpu, hl1, hupd⟩
  · refine Or.inl ⟨fun u hu => by simpa using hall u hu, ?_⟩
    show { s with users := _ } = s
    rw [hl]
  · exact Or.inr ⟨l1, u, l2, hdec, by simpa using hpu,
      fun v hv => by simpa using hl1 v hv, hupd⟩

/-- A successful `create_index` lists the declared index, keeps every index
already declared, and leaves the data untouched. -/
theorem create_index_ok_sub (t t' : Dbx) (ix : IndexSpec)
    (h : create_index t ix = Except.ok t') :
    ix ∈ t'.indexes ∧ (∀ j ∈ t.indexes, j ∈ t'.indexes) ∧ t'.data = t.data := by
  unfold create_index at h
  split_ifs at h with h1 h2
  · cases h
    exact ⟨h1, fun j hj => hj, rfl⟩
  · cases h
    refine ⟨by simp, fun j hj => by simp [hj], rfl⟩

/-- Re-declaring an index already present is a no-op success. -/
theorem create_index_mem_noop (t : Dbx) (ix : IndexSpec) (h : ix ∈ t.indexes) :
    create_index t ix = Except.ok t := by
  unfold create_index
  rw [if_pos h]

/-- C7: after a successful `create_indexes`, running it again re-declares the
same four indexes as no-ops — it succeeds and returns the state unchanged,
so no duplicate index is produced and no error is raised; once the unique
email index exists, inserting a user with an already-present email fails;
and declaring the indexes over a store that already holds duplicate emails
fails fast with the duplicate-key error. -/
theorem create_indexes_idempotent (s s' : Dbx)
    (h : create_indexes s = Except.ok s') :
    create_indexes s' = Except.ok s' ∧
    (∀ u : User, u.email ∈ s'.data.users.map (fun v => v.email) →
        add_student_user s' u = Except.error "duplicate key") ∧
    (∀ t : Dbx, emailIndex ∉ t.indexes →
        ¬ (t.data.users.map (fun u => u.email)).Nodup →
        create_indexes t = Except.error "duplicate key") := by
  unfold create_indexes at h
  cases hc1 : create_index s emailIndex with
  | error e => simp only [hc1] at h; exact Except.noConfusion h
  | ok s1 =>
  simp only [hc1] at h
  cases hc2 : create_index s1 ⟨"courses", ["title", "category"], false⟩ with
  | error e => simp only [hc2] at h; exact Except.noConfusion h
  | ok s2 =>
  simp only [hc2] at h
  cases hc3 : create_index s2 ⟨"assignments", ["dueDate"], false⟩ with
  | error e => simp only [hc3] at h; exact Except.noConfusion h
  | ok s3 =>
  simp only [hc3] at h
  obtain ⟨m1, k1, d1⟩ := create_index_ok_sub _ _ _ hc1
  obtain ⟨m2, k2, d2⟩ := create_index_ok_sub _ _ _ hc2
  obtain ⟨m3, k3, d3⟩ := create_index_ok_sub _ _ _ hc3
  obtain ⟨m4, k4, d4⟩ := create_index_ok_sub _ _ _ h
  have me : emailIndex ∈ s'.indexes := k4 _ (k3 _ (k2 _ m1))
  have g1 := create_index_mem_noop s' emailIndex me
  have g2 := create_index_mem_noop s' ⟨"courses", ["title", "category"], false⟩
    (k4 _ (k3 _ m2))
  have g3 := create_index_mem_noop s' ⟨"assignments", ["dueDate"], false⟩
    (k4 _ m3)
  have g4 := create_index_mem_noop s'
    ⟨"enrollments", ["studentId", "courseId"], false⟩ m4
  refine ⟨?_, ?_, ?_⟩
  · unfold create_indexes
    simp only [g1, g2, g3, g4]
  · intro u hu
    unfold add_student_user
    rw [if_pos ⟨me, hu⟩]
  · intro t ht hnd
    have he : create_index t emailIndex = Except.error "duplicate key" := by
      unfold create_index
      rw [if_neg ht, if_pos ⟨rfl, hnd⟩]
    unfold create_indexes
    simp only [he]

/-- First stored user of the C7 fixture. -/
def userC7 : User :=
  { userId := "u001", email := "ada@example.com", firstName := "Ada",
    lastName := "L", role := "student", dateJoined := ⟨2023, 1, 1⟩,
    profile := ⟨"bio", "img", ["Python"]⟩, isActive := true }

/-- A second user whose email duplicates `userC7`'s. -/
def userDupEmail : User :=
  { userId := "u002", email := "ada@example.com", firstName := "Eva",
    lastName := "M", role := "student", dateJoined := ⟨2023, 2, 2⟩,
    profile := ⟨"bio2", "img2", ["SQL"]⟩, isActive := true }

/-- Database holding just `userC7`. -/
def dbC7 : Db :=
  { users := [userC7], courses := [], enrollments := [], lessons := [],
    assignments := [], submissions := [], assignment_submissions := [] }

/-- The C7 state before any index declaration. -/
def dbxBefore : Dbx := ⟨dbC7, []⟩

/-- The C7 state after the first successful `create_indexes`. -/
def dbxAfter : Dbx :=
  ⟨dbC7, [emailIndex, ⟨"courses", ["title", "category"], false⟩,
    ⟨"assignments", ["dueDate"], false⟩,
    ⟨"enrollments", ["studentId", "courseId"], false⟩]⟩

/-- An unindexed state whose store already holds two users with the same
email. -/
def dbxDupEmails : Dbx :=
  ⟨{ dbC7 with users := [userC7, userDupEmail] }, []⟩

/-- C7 witness: on the concrete one-user store, `create_indexes` succeeds
once, re-running it is a no-op success, inserting a duplicate email then
fails, and declaring the indexes over a store with duplicate emails fails
fast. -/
theorem create_indexes_idempotent_witness :
    create_indexes dbxAfter = Except.ok dbxAfter ∧
    add_student_user dbxAfter userDupEmail = Except.error "duplicate key" ∧
    create_indexes dbxDupEmails = Except.error "duplicate key" := by
  obtain ⟨h1, h2, h3⟩ := create_indexes_idempotent dbxBefore dbxAfter (by rfl)
  exact ⟨h1, h2 userDupEmail (by decide), h3 dbxDupEmails (by decide) (by decide)⟩

end EduHub
